import Mathlib

/-!
Verification development for the behavioral-biometric continuous
authentication engine: adaptive thresholds, score fusion and decisions,
risk severity, recommended actions, session validation, challenge
lifecycle, and session teardown.  Scores and timestamps are modelled as
rationals; Python dictionaries are modelled as functions into Option.
-/

namespace BehaviorAuth

/-- Embeds BehaviorClassifier.predict (behavior_models.py): when the model
is not trained the method returns confidence 0.0; otherwise it returns the
probability produced by the trained random-forest model, which we abstract
as the parameter model_confidence. -/
def classifierPredict (is_trained : Bool) (model_confidence : ℚ) : ℚ :=
  if is_trained then model_confidence else 0

/-- Embeds AnomalyDetector.predict (behavior_models.py): when the model is
not trained the method returns anomaly score 1.0; otherwise it returns the
normalized isolation-forest score, abstracted as model_score. -/
def anomalyPredict (is_trained : Bool) (model_score : ℚ) : ℚ :=
  if is_trained then model_score else 1

/-- State of AdaptiveThresholds (behavior_models.py): the three base
thresholds, the per-context adjustment dictionary, and the learning rate. -/
structure AdaptiveThresholds where
  high_confidence : ℚ
  medium_confidence : ℚ
  low_confidence : ℚ
  context_adjustments : String → Option ℚ
  learning_rate : ℚ

namespace AdaptiveThresholds

/-- Embeds AdaptiveThresholds constructor: it stores the three configured
base values, starts with an empty adjustment dictionary and learning rate
0.1.  The constructor performs no validation of any kind. -/
def init (high medium low : ℚ) : AdaptiveThresholds :=
  { high_confidence := high
    medium_confidence := medium
    low_confidence := low
    context_adjustments := fun _ => none
    learning_rate := 1/10 }

/-- The config defaults: high 0.9, medium 0.7, low 0.5. -/
def defaults : AdaptiveThresholds := init (9/10) (7/10) (5/10)

/-- Embeds AdaptiveThresholds.adjust_threshold: ensure the context key is
present (default 0.0), nudge down on false_positive, up on false_negative,
leave alone otherwise, then clamp the stored adjustment to the interval
from -0.3 to 0.3. -/
def adjust_threshold (t : AdaptiveThresholds) (context feedback : String)
    (current_score : ℚ) : AdaptiveThresholds :=
  let a0 := (t.context_adjustments context).getD 0
  let a1 :=
    if feedback = "false_positive" then a0 - t.learning_rate * current_score
    else if feedback = "false_negative" then a0 + t.learning_rate * (1 - current_score)
    else a0
  let a2 := max (-(3/10)) (min (3/10) a1)
  { t with context_adjustments := fun c => if c = context then some a2 else t.context_adjustments c }

/-- Embeds AdaptiveThresholds.get_threshold: look up the base value for
the level (default 0.7 for unknown levels), add the adjustment for the
context (default 0.0), and clamp the result to the interval from 0.1 to
0.95. -/
def get_threshold (t : AdaptiveThresholds) (level : String)
    (context : String) : ℚ :=
  let base :=
    if level = "high_confidence" then t.high_confidence
    else if level = "medium_confidence" then t.medium_confidence
    else if level = "low_confidence" then t.low_confidence
    else 7/10
  let adjustment := (t.context_adjustments context).getD 0
  max (1/10) (min (95/100) (base + adjustment))

end AdaptiveThresholds

/-- One call to adjust_threshold: the context, the feedback string, and the
observed score. -/
structure AdjustCall where
  context : String
  feedback : String
  score : ℚ

/-- Applies a finite sequence of adjust_threshold calls in order. -/
def applyCalls (t : AdaptiveThresholds) (calls : List AdjustCall) : AdaptiveThresholds :=
  calls.foldl (fun s c => s.adjust_threshold c.context c.feedback c.score) t

/-- The adjustment stored (or defaulted) for every context lies in the
interval from -0.3 to 0.3. -/
def adjustmentsBounded (t : AdaptiveThresholds) : Prop :=
  ∀ c : String, -(3/10) ≤ ((t.context_adjustments c).getD 0 : ℚ) ∧
    ((t.context_adjustments c).getD 0 : ℚ) ≤ 3/10

/-- Embeds the decision chain of MLManager.analyze_behavior
(behavior_models.py lines 343 to 354): compare the combined confidence
against the three effective thresholds in order and return the decision
string together with the confidence level string. -/
def decisionFromConfidence (high medium low combined : ℚ) : String × String :=
  if high ≤ combined then ("continue", "high")
  else if medium ≤ combined then ("monitor", "medium")
  else if low ≤ combined then ("challenge", "low")
  else ("logout", "very_low")

/-- Trust ordering over decision strings: continue 3, monitor 2,
challenge 1, logout 0. -/
def trustLevel (d : String) : ℕ :=
  if d = "continue" then 3
  else if d = "monitor" then 2
  else if d = "challenge" then 1
  else 0

/-- Result record of MLManager.analyze_behavior. -/
structure MLAnalysis where
  decision : String
  confidence_level : String
  combined_confidence : ℚ
  auth_confidence : ℚ
  anomaly_score : ℚ
  threshold_high : ℚ
  threshold_medium : ℚ
  threshold_low : ℚ
  deriving DecidableEq

/-- Embeds MLManager.analyze_behavior: obtain both model predictions, fuse
them as (auth + (1 - anomaly)) / 2, fetch the three adaptive thresholds for
the context, and derive the decision by the threshold chain. -/
def analyze_behavior (classifier_trained detector_trained : Bool)
    (classifier_out detector_out : ℚ) (t : AdaptiveThresholds)
    (context : String) : MLAnalysis :=
  let auth_confidence := classifierPredict classifier_trained classifier_out
  let anomaly_score := anomalyPredict detector_trained detector_out
  let combined := (auth_confidence + (1 - anomaly_score)) / 2
  let hi := t.get_threshold "high_confidence" context
  let md := t.get_threshold "medium_confidence" context
  let lo := t.get_threshold "low_confidence" context
  let dc := decisionFromConfidence hi md lo combined
  { decision := dc.1
    confidence_level := dc.2
    combined_confidence := combined
    auth_confidence := auth_confidence
    anomaly_score := anomaly_score
    threshold_high := hi
    threshold_medium := md
    threshold_low := lo }

/-- Result record of authenticate_continuously (auth_manager.py). -/
structure AuthenticationResult where
  success : Bool
  confidence : ℚ
  decision : String
  message : String
  deriving DecidableEq

/-- Embeds AuthenticationManager._get_decision_message. -/
def get_decision_message (decision : String) : String :=
  if decision = "continue" then "Authentication successful - continuing normal operation"
  else if decision = "monitor" then "Authentication successful - enhanced monitoring enabled"
  else if decision = "challenge" then "Additional authentication required"
  else if decision = "logout" then "Authentication failed - session terminated"
  else String.append "Unknown decision: " decision

/-- Embeds the decision pipeline of
AuthenticationManager.authenticate_continuously (auth_manager.py): an
invalid session yields a failed logout result; missing behavioral features
yield a successful monitor result with the neutral confidence 0.5;
otherwise both models are consulted through analyze_behavior and the
result is built from its decision. -/
def authenticate_continuously (session_valid has_features : Bool)
    (classifier_trained detector_trained : Bool)
    (classifier_out detector_out : ℚ) (t : AdaptiveThresholds)
    (context : String) : AuthenticationResult :=
  if session_valid then
    if has_features then
      let a := analyze_behavior classifier_trained detector_trained
        classifier_out detector_out t context
      { success := a.decision = "continue" ∨ a.decision = "monitor"
        confidence := a.combined_confidence
        decision := a.decision
        message := get_decision_message a.decision }
    else
      { success := true, confidence := 1/2, decision := "monitor"
        message := "Insufficient behavioral data" }
  else
    { success := false, confidence := 0, decision := "logout"
      message := "Session validation failed" }

/-- The nine enumerated response actions (adaptive_response.py). -/
inductive ResponseAction where
  | CONTINUE
  | MONITOR
  | CHALLENGE_PIN
  | CHALLENGE_BIOMETRIC
  | CHALLENGE_SMS
  | RESTRICT_FUNCTIONS
  | LOCK_SESSION
  | LOGOUT
  | ALERT_ADMIN
  deriving DecidableEq

/-- The five alert severity levels (adaptive_response.py). -/
inductive AlertSeverity where
  | INFO
  | LOW
  | MEDIUM
  | HIGH
  | CRITICAL
  deriving DecidableEq

/-- Numeric rank of a severity, for comparing escalation. -/
def sevRank : AlertSeverity → ℕ
  | .INFO => 0
  | .LOW => 1
  | .MEDIUM => 2
  | .HIGH => 3
  | .CRITICAL => 4

/-- Embeds the risk-factor derivation of ResponseEngine.analyze_risk:
confidence bands, anomaly band, and the three contextual flags, appended
in source order. -/
def derive_risk_factors (confidence anomaly_score : ℚ)
    (device_mismatch location_change time_anomaly : Bool) : List String :=
  (if confidence < 3/10 then ["very_low_behavioral_confidence"]
   else if confidence < 1/2 then ["low_behavioral_confidence"] else [])
  ++ (if 7/10 < anomaly_score then ["high_anomaly_score"] else [])
  ++ (if device_mismatch then ["device_fingerprint_mismatch"] else [])
  ++ (if location_change then ["unusual_location"] else [])
  ++ (if time_anomaly then ["unusual_time_pattern"] else [])

/-- Embeds the base severity assignment of
ResponseEngine._calculate_severity: the severity derived from the
confidence alone. -/
def base_severity (confidence : ℚ) : AlertSeverity :=
  if confidence < 1/5 then .CRITICAL
  else if confidence < 2/5 then .HIGH
  else if confidence < 3/5 then .MEDIUM
  else .LOW

/-- Embeds ResponseEngine._calculate_severity: start from the base
severity, escalate low or medium to high when the anomaly score exceeds
0.8, and escalate any non-critical severity to high when a critical risk
factor is present. -/
def calculate_severity (confidence anomaly_score : ℚ)
    (risk_factors : List String) : AlertSeverity :=
  let s1 := base_severity confidence
  let s2 :=
    if 4/5 < anomaly_score ∧ (s1 = .LOW ∨ s1 = .MEDIUM) then AlertSeverity.HIGH
    else s1
  if ("device_fingerprint_mismatch" ∈ risk_factors ∨
      "very_low_behavioral_confidence" ∈ risk_factors) ∧ s2 ≠ .CRITICAL then
    AlertSeverity.HIGH
  else s2

/-- Embeds the in-order deduplication at the end of
ResponseEngine._recommend_actions: append each action not already seen. -/
def dedupActions (acc : List ResponseAction) :
    List ResponseAction → List ResponseAction
  | [] => acc
  | a :: rest =>
    if a ∈ acc then dedupActions acc rest
    else dedupActions (acc ++ [a]) rest

/-- Embeds ResponseEngine._recommend_actions: base actions from the
confidence level, extra actions from the severity, extra actions from
specific risk factors, then deduplicated preserving first occurrence. -/
def recommend_actions (confidence_level : String) (severity : AlertSeverity)
    (risk_factors : List String) : List ResponseAction :=
  let base :=
    if confidence_level = "high" then [ResponseAction.CONTINUE]
    else if confidence_level = "medium" then [ResponseAction.MONITOR, ResponseAction.CONTINUE]
    else if confidence_level = "low" then [ResponseAction.CHALLENGE_PIN, ResponseAction.MONITOR]
    else [ResponseAction.LOGOUT, ResponseAction.ALERT_ADMIN]
  let withSeverity :=
    if severity = .CRITICAL then
      base ++ [ResponseAction.LOGOUT, ResponseAction.ALERT_ADMIN, ResponseAction.LOCK_SESSION]
    else if severity = .HIGH then
      base ++ [ResponseAction.CHALLENGE_BIOMETRIC, ResponseAction.RESTRICT_FUNCTIONS]
    else base
  let withFactors :=
    (withSeverity
      ++ (if "device_fingerprint_mismatch" ∈ risk_factors then [ResponseAction.CHALLENGE_SMS] else [])
      ++ (if "unusual_location" ∈ risk_factors then [ResponseAction.CHALLENGE_BIOMETRIC] else []))
  dedupActions [] withFactors

/-- Output record of ResponseEngine.analyze_risk. -/
structure SecurityAlert where
  severity : AlertSeverity
  risk_factors : List String
  recommended_actions : List ResponseAction
  confidence_score : ℚ
  deriving DecidableEq

/-- Embeds ResponseEngine.analyze_risk: derive the risk factors from the
behavioral analysis and the contextual flags, compute the severity, and
compose the recommended actions. -/
def analyze_risk (a : MLAnalysis)
    (device_mismatch location_change time_anomaly : Bool) : SecurityAlert :=
  let rf := derive_risk_factors a.combined_confidence a.anomaly_score
    device_mismatch location_change time_anomaly
  let sev := calculate_severity a.combined_confidence a.anomaly_score rf
  { severity := sev
    risk_factors := rf
    recommended_actions := recommend_actions a.confidence_level sev rf
    confidence_score := a.combined_confidence }

/-- A session token (encryption.py SessionToken). -/
structure SessionToken where
  token_id : String
  user_id : String
  session_id : String
  created_at : ℚ
  expires_at : ℚ
  last_activity : ℚ
  device_fingerprint : Option String
  ip_address : Option String
  deriving DecidableEq

/-- State of SessionManager (encryption.py): the session dictionary and
the configured timeouts. -/
structure SessionManagerState where
  active_sessions : String → Option SessionToken
  session_timeout : ℚ
  idle_timeout : ℚ

namespace SessionManagerState

/-- Embeds SessionManager.invalidate_session: delete the entry if present;
return whether it was present. -/
def invalidate_session (s : SessionManagerState) (session_id : String) :
    SessionManagerState × Bool :=
  match s.active_sessions session_id with
  | none => (s, false)
  | some _ =>
    ({ s with active_sessions := fun k =>
        if k = session_id then none else s.active_sessions k }, true)

/-- Embeds SessionManager.validate_session: unknown id yields none; an
expired or idle-timed-out token is invalidated; if both the caller and the
token carry a device fingerprint and they differ the session is
invalidated at once; an IP address difference is ignored (the source only
has a pass statement there); otherwise last_activity is refreshed and the
token returned. -/
def validate_session (s : SessionManagerState) (now : ℚ) (session_id : String)
    (device_fingerprint ip_address : Option String) :
    SessionManagerState × Option SessionToken :=
  match s.active_sessions session_id with
  | none => (s, none)
  | some token =>
    if token.expires_at ≤ now then
      ((s.invalidate_session session_id).1, none)
    else if s.idle_timeout < now - token.last_activity then
      ((s.invalidate_session session_id).1, none)
    else
      let gate : Bool :=
        match device_fingerprint, token.device_fingerprint with
        | some fp, some tfp => fp ≠ tfp
        | _, _ => false
      if gate then ((s.invalidate_session session_id).1, none)
      else
        let tok2 := { token with last_activity := now }
        ({ s with active_sessions := fun k =>
            if k = session_id then some tok2 else s.active_sessions k },
         some tok2)

end SessionManagerState

/-- Embeds SecurityManager._assess_session_security
(security_manager.py): a device-fingerprint mismatch adds 0.3 risk and
sets the level to medium, an IP mismatch adds 0.2 risk, a session older
than one hour adds 0.1 risk; a total of at least 0.5 yields level high
with additional authentication required, at least 0.3 yields level
medium.  Returns (risk_score, security_level, requires_additional_auth). -/
def assess_session_security (token : SessionToken)
    (device_fingerprint ip_address : Option String) (now : ℚ) :
    ℚ × String × Bool :=
  let fpMismatch : Bool :=
    match device_fingerprint, token.device_fingerprint with
    | some fp, some tfp => fp ≠ tfp
    | _, _ => false
  let ipMismatch : Bool :=
    match ip_address, token.ip_address with
    | some ip, some tip => ip ≠ tip
    | _, _ => false
  let risk1 : ℚ := if fpMismatch then 3/10 else 0
  let level1 := if fpMismatch then "medium" else "low"
  let risk2 := risk1 + (if ipMismatch then 2/10 else 0)
  let risk3 := risk2 + (if 3600 < now - token.created_at then 1/10 else 0)
  if 1/2 ≤ risk3 then (risk3, "high", true)
  else if 3/10 ≤ risk3 then (risk3, "medium", false)
  else (risk3, level1, false)

/-- An authentication challenge (adaptive_response.py AuthChallenge). -/
structure AuthChallenge where
  challenge_id : String
  challenge_type : String
  user_id : String
  session_id : String
  created_at : ℚ
  expires_at : ℚ
  attempts_remaining : Int
  is_completed : Bool
  is_successful : Bool
  deriving DecidableEq

/-- The relevant keys of the response dictionary passed to
process_challenge_response: empty strings model absent keys, matching
Python truthiness in the validators. -/
structure ChallengeResponse where
  pin : String
  expected_pin : String
  biometric_data : Bool
  biometric_confidence : ℚ
  sms_code : String
  expected_code : String
  deriving DecidableEq

/-- Embeds ChallengeManager.create_challenge: a fresh pending challenge
with attempts_remaining = max_attempts and expiry now + timeout. -/
def create_challenge (challenge_type user_id session_id challenge_id : String)
    (now timeout : ℚ) (max_attempts : Int) : AuthChallenge :=
  { challenge_id := challenge_id
    challenge_type := challenge_type
    user_id := user_id
    session_id := session_id
    created_at := now
    expires_at := now + timeout
    attempts_remaining := max_attempts
    is_completed := false
    is_successful := false }

/-- Embeds ChallengeManager._validate_pin_challenge. -/
def validate_pin_challenge (r : ChallengeResponse) : Bool × String :=
  if r.pin = "" then (false, "PIN not provided")
  else if r.pin = r.expected_pin then (true, "PIN verified")
  else (false, "Invalid PIN")

/-- Embeds ChallengeManager._validate_biometric_challenge. -/
def validate_biometric_challenge (r : ChallengeResponse) : Bool × String :=
  if r.biometric_data = false then (false, "Biometric data not provided")
  else if 8/10 ≤ r.biometric_confidence then (true, "Biometric verified")
  else (false, "Biometric verification failed")

/-- Embeds ChallengeManager._validate_sms_challenge. -/
def validate_sms_challenge (r : ChallengeResponse) : Bool × String :=
  if r.sms_code = "" then (false, "SMS code not provided")
  else if r.sms_code = r.expected_code then (true, "SMS code verified")
  else (false, "Invalid SMS code")

/-- The type dispatch of ChallengeManager._validate_challenge_response,
which reads only the challenge type. -/
def validate_by_type (challenge_type : String) (r : ChallengeResponse) :
    Bool × String :=
  if challenge_type = "pin" then validate_pin_challenge r
  else if challenge_type = "biometric" then validate_biometric_challenge r
  else if challenge_type = "sms" then validate_sms_challenge r
  else (false, String.append "Unknown challenge type: " challenge_type)

/-- Embeds ChallengeManager._validate_challenge_response. -/
def validate_challenge_response (c : AuthChallenge) (r : ChallengeResponse) :
    Bool × String :=
  validate_by_type c.challenge_type r

/-- Result of one process_challenge_response call: the challenge entry as
it remains in the registry afterwards (none when it was reclaimed), the
returned success flag, and the returned message. -/
structure ProcessResult where
  challenge : Option AuthChallenge
  success : Bool
  message : String
  deriving DecidableEq

/-- Embeds ChallengeManager.process_challenge_response for one challenge
entry: a missing entry reports not found; an expired challenge is
reclaimed; a completed challenge replays its stored outcome; a valid
response completes the challenge successfully; a failing response
decrements attempts_remaining and, at zero or below, completes the
challenge unsuccessfully with the maximum-attempts message. -/
def process_challenge_response (entry : Option AuthChallenge) (now : ℚ)
    (r : ChallengeResponse) : ProcessResult :=
  match entry with
  | none => ⟨none, false, "Challenge not found or expired"⟩
  | some c =>
    if c.expires_at < now then ⟨none, false, "Challenge expired"⟩
    else if c.is_completed then ⟨some c, c.is_successful, "Challenge already completed"⟩
    else
      let v := validate_challenge_response c r
      if v.1 then
        ⟨some { c with is_completed := true, is_successful := true }, true, v.2⟩
      else
        let c2 := { c with attempts_remaining := c.attempts_remaining - 1 }
        if c2.attempts_remaining ≤ 0 then
          ⟨some { c2 with is_completed := true, is_successful := false },
           false, "Maximum attempts exceeded"⟩
        else ⟨some c2, false, v.2⟩

/-- The challenge entry after k consecutive process_challenge_response
calls with the same response at the same time. -/
def processIter (entry : Option AuthChallenge) (now : ℚ)
    (r : ChallengeResponse) : ℕ → Option AuthChallenge
  | 0 => entry
  | k + 1 => (process_challenge_response (processIter entry now r k) now r).challenge

/-- The behavioral session record (behavioral_manager.py
BehaviorSession), reduced to the fields end_session can touch. -/
structure BehaviorSession where
  session_id : String
  user_id : String
  start_time : ℚ
  is_active : Bool
  deriving DecidableEq

/-- Per-session record held in AuthenticationManager.active_sessions. -/
structure SessionState where
  user_id : String
  start_time : ℚ
  last_authentication : ℚ
  authentication_count : ℕ
  device_fingerprint : Option String
  ip_address : Option String
  deriving DecidableEq

/-- The state slice of AuthenticationManager touched by end_session: the
single behavioral session of BehavioralDataManager together with its
running flag, the security session registry, the active-sessions map and
the feature-history map. -/
structure AuthManagerState where
  current_session : Option BehaviorSession
  behavioral_running : Bool
  security_sessions : String → Option SessionToken
  active_sessions : String → Option SessionState
  feature_history : String → Option (List (List (String × ℚ)))

/-- Embeds BehavioralDataManager.stop_session: with no current behavioral
session it returns false and changes nothing; otherwise it stops
collection and marks the current behavioral session inactive, whichever
session it belongs to. -/
def stop_session (s : AuthManagerState) : AuthManagerState × Bool :=
  match s.current_session with
  | none => (s, false)
  | some cs =>
    ({ s with
        behavioral_running := false
        current_session := some { cs with is_active := false } }, true)

/-- Embeds AuthenticationManager.end_session: stop the behavioral
session, invalidate the security session, delete the per-session state
and feature history if present, and return true. -/
def end_session (s : AuthManagerState) (session_id : String) :
    AuthManagerState × Bool :=
  let s1 := (stop_session s).1
  let s2 := { s1 with
    security_sessions := fun k =>
      if k = session_id then none else s1.security_sessions k }
  let s3 := { s2 with
    active_sessions := fun k =>
      if k = session_id then none else s2.active_sessions k
    feature_history := fun k =>
      if k = session_id then none else s2.feature_history k }
  (s3, true)

section Theorems

/-- get_threshold always clamps its result into the interval from 0.1 to
0.95. -/
theorem get_threshold_bounds (t : AdaptiveThresholds) (level context : String) :
    1/10 ≤ t.get_threshold level context ∧
    t.get_threshold level context ≤ 95/100 := by
  unfold AdaptiveThresholds.get_threshold
  refine ⟨le_max_left _ _, max_le (by norm_num) (min_le_left _ _)⟩

/-- The freshly constructed store has all adjustments at the default 0. -/
theorem init_bounded (high medium low : ℚ) :
    adjustmentsBounded (AdaptiveThresholds.init high medium low) := by
  intro c
  simp [AdaptiveThresholds.init]
  norm_num

/-- One adjust_threshold call keeps every stored adjustment clamped. -/
theorem adjust_preserves_bounded (t : AdaptiveThresholds)
    (context feedback : String) (score : ℚ) (h : adjustmentsBounded t) :
    adjustmentsBounded (t.adjust_threshold context feedback score) := by
  intro c
  unfold AdaptiveThresholds.adjust_threshold
  by_cases hc : c = context
  · simp only [hc, if_pos rfl, Option.getD_some]
    exact ⟨le_max_left _ _, max_le (by norm_num) (min_le_left _ _)⟩
  · simpa [hc] using h c

/-- Any sequence of adjust_threshold calls keeps every adjustment
clamped. -/
theorem applyCalls_preserves_bounded (calls : List AdjustCall)
    (t : AdaptiveThresholds) (h : adjustmentsBounded t) :
    adjustmentsBounded (applyCalls t calls) := by
  induction calls generalizing t with
  | nil => exact h
  | cons c rest ih =>
    exact ih _ (adjust_preserves_bounded t c.context c.feedback c.score h)

/-- Claim C8: after any finite sequence of adjust_threshold calls on a
freshly constructed store, the accumulated adjustment of every context
stays within the interval from -0.3 to 0.3, and every value returned by
get_threshold lies in the interval from 0.1 to 0.95. -/
theorem c8_bounded_adjustment (high medium low : ℚ) (calls : List AdjustCall)
    (context level : String) :
    (-(3/10) ≤ (((applyCalls (AdaptiveThresholds.init high medium low)
        calls).context_adjustments context).getD 0 : ℚ) ∧
      (((applyCalls (AdaptiveThresholds.init high medium low)
        calls).context_adjustments context).getD 0 : ℚ) ≤ 3/10) ∧
    (1/10 ≤ (applyCalls (AdaptiveThresholds.init high medium low)
        calls).get_threshold level context ∧
      (applyCalls (AdaptiveThresholds.init high medium low)
        calls).get_threshold level context ≤ 95/100) :=
  ⟨applyCalls_preserves_bounded calls _ (init_bounded high medium low) context,
   get_threshold_bounds _ level context⟩

/-- Clamping is the identity on values already within the bounds. -/
theorem clamp_eq_self (a : ℚ) (h1 : -(3/10) ≤ a) (h2 : a ≤ 3/10) :
    max (-(3/10)) (min (3/10) a) = a := by
  rw [min_eq_right h2, max_eq_right h1]

/-- Claim C10: calling adjust_threshold with any feedback string other
than false_positive or false_negative leaves every effective threshold
unchanged: get_threshold returns the same value for every level and every
context before and after the call, for every store reachable from
construction by adjust_threshold calls. -/
theorem c10_unknown_feedback_frame (high medium low : ℚ)
    (calls : List AdjustCall) (context2 feedback : String) (score : ℚ)
    (level context : String)
    (h1 : feedback ≠ "false_positive") (h2 : feedback ≠ "false_negative") :
    ((applyCalls (AdaptiveThresholds.init high medium low)
        calls).adjust_threshold context2 feedback score).get_threshold level context
      = (applyCalls (AdaptiveThresholds.init high medium low)
          calls).get_threshold level context := by
  set t := applyCalls (AdaptiveThresholds.init high medium low) calls with ht
  have hb : adjustmentsBounded t :=
    applyCalls_preserves_bounded calls _ (init_bounded high medium low)
  unfold AdaptiveThresholds.adjust_threshold AdaptiveThresholds.get_threshold
  simp only [if_neg h1, if_neg h2]
  by_cases hc : context = context2
  · subst hc
    rw [if_pos rfl, Option.getD_some,
      clamp_eq_self _ (hb context).1 (hb context).2]
  · rw [if_neg hc]

/-- Witness for c10_unknown_feedback_frame at a concrete store, feedback
string and context. -/
theorem c10_witness :
    ("other" : String) ≠ "false_positive" ∧
    ("other" : String) ≠ "false_negative" ∧
    ((applyCalls (AdaptiveThresholds.init (9/10) (7/10) (5/10))
        [⟨"login", "false_negative", 1/4⟩]).adjust_threshold "login" "other"
        (1/2)).get_threshold "low_confidence" "login"
      = (applyCalls (AdaptiveThresholds.init (9/10) (7/10) (5/10))
          [⟨"login", "false_negative", 1/4⟩]).get_threshold "low_confidence" "login" :=
  ⟨by decide, by decide,
   c10_unknown_feedback_frame (9/10) (7/10) (5/10)
     [⟨"login", "false_negative", 1/4⟩] "login" "other" (1/2)
     "low_confidence" "login" (by decide) (by decide)⟩

/-- Claim C4 counterexample: constructing the adaptive threshold store
with base values that violate the ordering (low 0.9 strictly greater than
medium 0.5) is not rejected: the constructor returns a store holding
exactly the violating values, unchanged. -/
theorem c4_counterexample :
    (AdaptiveThresholds.init (1/10) (1/2) (9/10)).medium_confidence = 1/2
    ∧ (AdaptiveThresholds.init (1/10) (1/2) (9/10)).low_confidence = 9/10
    ∧ ¬((9 : ℚ)/10 ≤ 1/2) :=
  ⟨rfl, rfl, by norm_num⟩

/-- Claim C4 amended: the constructor performs no validation of the base
threshold ordering; every configuration, including one with low greater
than medium, is accepted silently and stored as given, with an empty
adjustment table. -/
theorem c4_no_validation (high medium low : ℚ) :
    (AdaptiveThresholds.init high medium low).high_confidence = high
    ∧ (AdaptiveThresholds.init high medium low).medium_confidence = medium
    ∧ (AdaptiveThresholds.init high medium low).low_confidence = low
    ∧ ∀ c : String,
        (AdaptiveThresholds.init high medium low).context_adjustments c = none :=
  ⟨rfl, rfl, rfl, fun _ => rfl⟩

/-- Claim C6: for every fixed triple of effective thresholds, even an
unordered one, the decision derived from the combined confidence is
monotonically non-decreasing in trust level as the confidence increases,
under the ordering continue over monitor over challenge over logout. -/
theorem c6_decision_monotone (high medium low c1 c2 : ℚ) (h : c1 ≤ c2) :
    trustLevel (decisionFromConfidence high medium low c1).1 ≤
    trustLevel (decisionFromConfidence high medium low c2).1 := by
  unfold decisionFromConfidence
  split_ifs <;> first | decide | linarith

/-- Witness for c6_decision_monotone at the default thresholds with the
confidences 0.4 and 0.6. -/
theorem c6_witness :
    ((2 : ℚ)/5 ≤ 3/5) ∧
    trustLevel (decisionFromConfidence (9/10) (7/10) (5/10) (2/5)).1 ≤
      trustLevel (decisionFromConfidence (9/10) (7/10) (5/10) (3/5)).1 :=
  ⟨by norm_num, c6_decision_monotone (9/10) (7/10) (5/10) (2/5) (3/5) (by norm_num)⟩

/-- Claim C7: the severity rules applied after the base severity only
escalate and never de-escalate: the final severity is at least the base
severity; a critical risk factor forces a final severity of at least
high; a critical base severity is never reduced; and the anomaly rule
raises a low or medium base severity to at least high. -/
theorem c7_severity_escalation (confidence anomaly_score : ℚ)
    (risk_factors : List String) :
    sevRank (base_severity confidence) ≤
      sevRank (calculate_severity confidence anomaly_score risk_factors)
    ∧ (("device_fingerprint_mismatch" ∈ risk_factors ∨
        "very_low_behavioral_confidence" ∈ risk_factors) →
        3 ≤ sevRank (calculate_severity confidence anomaly_score risk_factors))
    ∧ (base_severity confidence = .CRITICAL →
        calculate_severity confidence anomaly_score risk_factors = .CRITICAL)
    ∧ ((4/5 < anomaly_score ∧
        (base_severity confidence = .LOW ∨ base_severity confidence = .MEDIUM)) →
        3 ≤ sevRank (calculate_severity confidence anomaly_score risk_factors)) := by
  unfold calculate_severity
  cases hb : base_severity confidence <;>
    simp only [hb] <;> split_ifs <;> simp_all [sevRank]

/-- Witness for c7_severity_escalation: a device-fingerprint-mismatch
factor at confidence 0.5 forces severity at least high. -/
theorem c7_witness :
    ("device_fingerprint_mismatch" ∈ (["device_fingerprint_mismatch"] : List String) ∨
      "very_low_behavioral_confidence" ∈ (["device_fingerprint_mismatch"] : List String)) ∧
    3 ≤ sevRank (calculate_severity (1/2) (3/5) ["device_fingerprint_mismatch"]) :=
  ⟨by decide,
   (c7_severity_escalation (1/2) (3/5) ["device_fingerprint_mismatch"]).2.1 (by decide)⟩

/-- Claim C5 counterexample: with default thresholds, analyzing
authConfidence 0.6 and anomalyScore 0.6 yields combined confidence
(0.6 + (1 - 0.6)) / 2 = 0.5, which is not the claimed 0.40. -/
theorem c5_counterexample :
    (analyze_behavior true true (3/5) (3/5) AdaptiveThresholds.defaults
      "default").combined_confidence = 1/2
    ∧ ((1 : ℚ)/2 ≠ 2/5) := by
  constructor
  · norm_num [analyze_behavior, classifierPredict, anomalyPredict]
  · norm_num

/-- Claim C5 amended: with default thresholds and no contextual risk
signals, analyzing authConfidence 0.6 and anomalyScore 0.6 yields
combined confidence 0.50 by the fusion formula, the decision challenge,
and a recommended-actions list whose first element is the PIN challenge
action. -/
theorem c5_scenario :
    (analyze_behavior true true (3/5) (3/5) AdaptiveThresholds.defaults
      "default").combined_confidence = 1/2
    ∧ (analyze_behavior true true (3/5) (3/5) AdaptiveThresholds.defaults
        "default").decision = "challenge"
    ∧ (analyze_risk (analyze_behavior true true (3/5) (3/5)
        AdaptiveThresholds.defaults "default") false false
        false).recommended_actions.head? = some ResponseAction.CHALLENGE_PIN := by
  refine ⟨?_, ?_, ?_⟩ <;>
    norm_num +decide [analyze_behavior, classifierPredict, anomalyPredict,
      AdaptiveThresholds.defaults, AdaptiveThresholds.init,
      AdaptiveThresholds.get_threshold, decisionFromConfidence, analyze_risk,
      derive_risk_factors, calculate_severity, base_severity,
      recommend_actions, dedupActions]

/-- Claim C1 counterexample: with both models untrained, features present
and a valid session, the pipeline reports confidence 0, not 0.5, and the
decision logout, not monitor: the untrained classifier returns 0.0 and
the untrained anomaly detector returns 1.0. -/
theorem c1_counterexample :
    (authenticate_continuously true true false false 0 0
      AdaptiveThresholds.defaults "default").decision = "logout"
    ∧ (authenticate_continuously true true false false 0 0
        AdaptiveThresholds.defaults "default").confidence = 0 := by
  refine ⟨?_, ?_⟩ <;>
    norm_num +decide [authenticate_continuously, analyze_behavior,
      classifierPredict, anomalyPredict, AdaptiveThresholds.defaults,
      AdaptiveThresholds.init, AdaptiveThresholds.get_threshold,
      decisionFromConfidence]

/-- At zero combined confidence the decision chain always reaches logout,
because every effective threshold is clamped to at least 0.1. -/
theorem decisionFromConfidence_zero (high medium low : ℚ)
    (h1 : 1/10 ≤ high) (h2 : 1/10 ≤ medium) (h3 : 1/10 ≤ low) :
    decisionFromConfidence high medium low 0 = ("logout", "very_low") := by
  unfold decisionFromConfidence
  rw [if_neg (by linarith), if_neg (by linarith), if_neg (by linarith)]

/-- Claim C1 amended: when behavioral inputs are missing the pipeline
substitutes the neutral confidence 0.5 and yields a successful monitor
result for every valid session; but when the scorer is unavailable (both
models untrained) and features are present, the predictions are 0.0 and
1.0, the combined confidence is 0, and the decision is logout for every
threshold state and context. -/
theorem c1_degradation (classifier_trained detector_trained : Bool)
    (classifier_out detector_out : ℚ) (t : AdaptiveThresholds)
    (context : String) :
    authenticate_continuously true false classifier_trained detector_trained
      classifier_out detector_out t context
      = ⟨true, 1/2, "monitor", "Insufficient behavioral data"⟩
    ∧ (authenticate_continuously true true false false classifier_out
        detector_out t context).decision = "logout" := by
  constructor
  · rfl
  · have hz : (classifierPredict false classifier_out +
        (1 - anomalyPredict false detector_out)) / 2 = 0 := by
      simp [classifierPredict, anomalyPredict]
    show (decisionFromConfidence (t.get_threshold "high_confidence" context)
      (t.get_threshold "medium_confidence" context)
      (t.get_threshold "low_confidence" context)
      ((classifierPredict false classifier_out +
        (1 - anomalyPredict false detector_out)) / 2)).1 = "logout"
    rw [hz, decisionFromConfidence_zero _ _ _
      (get_threshold_bounds t "high_confidence" context).1
      (get_threshold_bounds t "medium_confidence" context).1
      (get_threshold_bounds t "low_confidence" context).1]

/-- A stored session token carrying an IP address but no device
fingerprint, not expired at time 10. -/
def exToken : SessionToken :=
  { token_id := "tok"
    user_id := "alice"
    session_id := "sessA"
    created_at := 0
    expires_at := 100
    last_activity := 0
    device_fingerprint := none
    ip_address := some "1.1.1.1" }

/-- A session registry holding exactly exToken. -/
def exSessions : SessionManagerState :=
  { active_sessions := fun k => if k = "sessA" then some exToken else none
    session_timeout := 100
    idle_timeout := 50 }

/-- Claim C2 counterexample: both sides supply an IP address and they
differ, yet validate_session returns a valid refreshed token and keeps
the session stored: an IP mismatch does not invalidate the session. -/
theorem c2_counterexample :
    (exSessions.validate_session 10 "sessA" none (some "2.2.2.2")).2
      = some { exToken with last_activity := 10 }
    ∧ (exSessions.validate_session 10 "sessA" none
        (some "2.2.2.2")).1.active_sessions "sessA"
      = some { exToken with last_activity := 10 } := by
  refine ⟨?_, ?_⟩ <;>
    norm_num +decide [SessionManagerState.validate_session, exSessions, exToken]

/-- Claim C2 amended: for a stored, unexpired, non-idle session, a
device-fingerprint mismatch is a binary gate — validate_session removes
the session and returns an invalid result — but an IP-address mismatch is
not: validate_session returns the refreshed token and keeps the session,
and the separate security assessment merely adds 0.2 to the risk score,
leaving the level low with no additional authentication required. -/
theorem c2_binary_gates (s : SessionManagerState) (now : ℚ) (sid : String)
    (token : SessionToken) (ip : Option String)
    (hfind : s.active_sessions sid = some token)
    (hexp : now < token.expires_at)
    (hidle : now - token.last_activity ≤ s.idle_timeout) :
    (∀ fp tfp, token.device_fingerprint = some tfp → fp ≠ tfp →
      (s.validate_session now sid (some fp) ip).2 = none ∧
      (s.validate_session now sid (some fp) ip).1.active_sessions sid = none)
    ∧ (∀ i, (s.validate_session now sid none (some i)).2
        = some { token with last_activity := now } ∧
        (s.validate_session now sid none (some i)).1.active_sessions sid
        = some { token with last_activity := now })
    ∧ (∀ i tip, token.ip_address = some tip → i ≠ tip →
        now - token.created_at ≤ 3600 →
        assess_session_security token none (some i) now = (2/10, "low", false)) := by
  have hnexp : ¬ token.expires_at ≤ now := not_le.mpr hexp
  have hnidle : ¬ s.idle_timeout < now - token.last_activity := not_lt.mpr hidle
  refine ⟨?_, ?_, ?_⟩
  · intro fp tfp htf hne
    unfold SessionManagerState.validate_session SessionManagerState.invalidate_session
    rw [hfind]
    simp only [if_neg hnexp, if_neg hnidle, htf]
    simp [hne]
  · intro i
    unfold SessionManagerState.validate_session
    rw [hfind]
    simp [if_neg hnexp, if_neg hnidle]
  · intro i tip hip hne hage
    have hnage : ¬ (3600 : ℚ) < now - token.created_at := not_lt.mpr hage
    unfold assess_session_security
    rw [hip]
    simp only [hne, if_neg hnage]
    norm_num [hne]

/-- The same stored token but carrying a device fingerprint, so the
fingerprint gate can fire. -/
def exTokenFp : SessionToken :=
  { exToken with device_fingerprint := some "fpA" }

/-- A session registry holding exactly exTokenFp. -/
def exSessionsFp : SessionManagerState :=
  { active_sessions := fun k => if k = "sessA" then some exTokenFp else none
    session_timeout := 100
    idle_timeout := 50 }

/-- Witness for c2_binary_gates: concrete instantiation at time 10 with a
mismatched fingerprint and a mismatched IP. -/
theorem c2_witness :
    (exSessionsFp.active_sessions "sessA" = some exTokenFp) ∧
    ((10 : ℚ) < exTokenFp.expires_at) ∧
    ((10 : ℚ) - exTokenFp.last_activity ≤ exSessionsFp.idle_timeout) ∧
    (exSessionsFp.validate_session 10 "sessA" (some "fpB") none).2 = none ∧
    (exSessionsFp.validate_session 10 "sessA" (some "fpB")
      none).1.active_sessions "sessA" = none ∧
    assess_session_security exTokenFp none (some "2.2.2.2") 10 = (2/10, "low", false) := by
  have h := c2_binary_gates exSessionsFp 10 "sessA" exTokenFp none
    (by simp [exSessionsFp]) (by norm_num [exTokenFp, exToken])
    (by norm_num [exTokenFp, exToken, exSessionsFp])
  exact ⟨by simp [exSessionsFp], by norm_num [exTokenFp, exToken],
    by norm_num [exTokenFp, exToken, exSessionsFp],
    (h.1 "fpB" "fpA" rfl (by simp)).1,
    (h.1 "fpB" "fpA" rfl (by simp)).2,
    h.2.2 "2.2.2.2" "1.1.1.1" rfl (by simp) (by norm_num [exTokenFp, exToken])⟩

/-- A pin-challenge response carrying the wrong PIN: every attempt with
it fails validation. -/
def exResp : ChallengeResponse :=
  { pin := "1111"
    expected_pin := "9999"
    biometric_data := false
    biometric_confidence := 0
    sms_code := ""
    expected_code := "" }

/-- Claim C3 counterexample: with maxAttempts 3, after three failing PIN
responses exhaust the challenge, the fourth call on the same challenge
returns the message of the already-completed branch, not the
maximum-attempts message the claim asserts. -/
theorem c3_counterexample :
    (process_challenge_response
      (process_challenge_response
        (process_challenge_response
          (process_challenge_response
            (some (create_challenge "pin" "alice" "sessA" "ch1" 0 300 3))
            0 exResp).challenge
          0 exResp).challenge
        0 exResp).challenge
      0 exResp).message = "Challenge already completed"
    ∧ ("Challenge already completed" : String) ≠ "maximum attempts exceeded"
    ∧ ("Challenge already completed" : String) ≠ "Maximum attempts exceeded" := by
  refine ⟨?_, by decide, by decide⟩
  norm_num +decide [process_challenge_response, create_challenge,
    validate_challenge_response, validate_by_type, validate_pin_challenge,
    exResp]

/-- Before the attempts run out, each failing call just decrements
attempts_remaining: after k failing calls (k below N) the challenge is
still pending with N - k attempts left. -/
theorem processIter_failing (ctype uid sid cid : String) (now timeout : ℚ)
    (N : ℕ) (r : ChallengeResponse)
    (hfail : (validate_by_type ctype r).1 = false) (ht : 0 ≤ timeout) :
    ∀ k : ℕ, k < N →
      processIter (some (create_challenge ctype uid sid cid now timeout (N : Int)))
          now r k
        = some { create_challenge ctype uid sid cid now timeout (N : Int) with
                 attempts_remaining := (N : Int) - k } := by
  have hnexp : ¬ (now + timeout < now) := by linarith
  intro k
  induction k with
  | zero =>
    intro _
    simp [processIter, create_challenge]
  | succ k ih =>
    intro hk
    have hk0 : k < N := Nat.lt_of_succ_lt hk
    have hpos : ¬ ((N : Int) - (k : ℕ) - 1 ≤ 0) := by omega
    have harith : ((N : Int) - ((k + 1 : ℕ) : Int)) = (N : Int) - (k : ℕ) - 1 := by
      omega
    unfold processIter
    rw [ih hk0]
    unfold process_challenge_response
    simp only [create_challenge, validate_challenge_response, if_neg hnexp,
      Bool.false_eq_true, if_false, hfail, harith]
    rw [if_neg hpos]

/-- Claim C3 amended: for a challenge created with maxAttempts N of at
least 1, exactly N consecutive failing responses before expiry exhaust
it — the Nth failing call marks it completed and unsuccessful with zero
attempts left and returns the message Maximum attempts exceeded — and the
next call on the same challenge returns false with the message Challenge
already completed, leaving the challenge state unchanged, without
decrementing attempts_remaining further. -/
theorem c3_exhaustion (ctype uid sid cid : String) (now timeout : ℚ)
    (N : ℕ) (r : ChallengeResponse) (hN : 1 ≤ N) (ht : 0 ≤ timeout)
    (hfail : (validate_by_type ctype r).1 = false) :
    (process_challenge_response
        (processIter (some (create_challenge ctype uid sid cid now timeout (N : Int)))
          now r (N - 1)) now r
      = ⟨some { create_challenge ctype uid sid cid now timeout (N : Int) with
                attempts_remaining := 0, is_completed := true,
                is_successful := false },
         false, "Maximum attempts exceeded"⟩)
    ∧ (process_challenge_response
        (processIter (some (create_challenge ctype uid sid cid now timeout (N : Int)))
          now r N) now r
      = ⟨processIter (some (create_challenge ctype uid sid cid now timeout (N : Int)))
          now r N,
         false, "Challenge already completed"⟩) := by
  have hnexp : ¬ (now + timeout < now) := by linarith
  obtain ⟨M, rfl⟩ : ∃ M, N = M + 1 := ⟨N - 1, by omega⟩
  simp only [Nat.add_sub_cancel]
  have hiter := processIter_failing ctype uid sid cid now timeout (M + 1) r
    hfail ht M (by omega)
  have hone : (((M + 1 : ℕ) : Int) - ((M : ℕ) : Int)) = 1 := by omega
  have hNth : process_challenge_response
      (processIter (some (create_challenge ctype uid sid cid now timeout
        ((M + 1 : ℕ) : Int))) now r M) now r
      = ⟨some { create_challenge ctype uid sid cid now timeout ((M + 1 : ℕ) : Int) with
                attempts_remaining := 0, is_completed := true,
                is_successful := false },
         false, "Maximum attempts exceeded"⟩ := by
    rw [hiter]
    unfold process_challenge_response
    simp only [create_challenge, validate_challenge_response, if_neg hnexp,
      Bool.false_eq_true, if_false, hfail, hone]
    norm_num
  refine ⟨hNth, ?_⟩
  have hstateN : processIter (some (create_challenge ctype uid sid cid now timeout
      ((M + 1 : ℕ) : Int))) now r (M + 1)
      = some { create_challenge ctype uid sid cid now timeout ((M + 1 : ℕ) : Int) with
               attempts_remaining := 0, is_completed := true,
               is_successful := false } := by
    show (process_challenge_response
      (processIter (some (create_challenge ctype uid sid cid now timeout
        ((M + 1 : ℕ) : Int))) now r M) now r).challenge = _
    rw [hNth]
  rw [hstateN]
  unfold process_challenge_response
  simp [create_challenge, if_neg hnexp]
  all_goals linarith

/-- Witness for c3_exhaustion: a pin challenge with maxAttempts 3 and a
wrong pin; the third failing call returns the maximum-attempts message. -/
theorem c3_witness :
    (1 ≤ 3) ∧ ((0 : ℚ) ≤ 300) ∧ ((validate_by_type "pin" exResp).1 = false) ∧
    (process_challenge_response
      (processIter (some (create_challenge "pin" "alice" "sessA" "ch1" 0 300
        ((3 : ℕ) : Int))) 0 exResp (3 - 1)) 0 exResp).message
      = "Maximum attempts exceeded" := by
  refine ⟨by decide, by norm_num, by decide, ?_⟩
  rw [(c3_exhaustion "pin" "alice" "sessA" "ch1" 0 300 3 exResp (by decide)
    (by norm_num) (by decide)).1]

/-- A concrete authentication-manager state with one fully started
session A: behavioral collection active for A, A registered in the
security registry, the active-sessions map and the feature history. -/
def exAuthState : AuthManagerState :=
  { current_session := some
      { session_id := "A", user_id := "alice", start_time := 0, is_active := true }
    behavioral_running := true
    security_sessions := fun k =>
      if k = "A" then
        some { token_id := "t9", user_id := "alice", session_id := "A"
               created_at := 0, expires_at := 100, last_activity := 0
               device_fingerprint := none, ip_address := none }
      else none
    active_sessions := fun k =>
      if k = "A" then
        some { user_id := "alice", start_time := 0, last_authentication := 0
               authentication_count := 1, device_fingerprint := none
               ip_address := none }
      else none
    feature_history := fun k => if k = "A" then some [] else none }

/-- Claim C9 counterexample: ending a session id that is unknown to both
registries does return true, but it does not leave every other session
unchanged: it stops behavioral collection and marks the behavioral
session of session A inactive. -/
theorem c9_counterexample :
    (end_session exAuthState "bogus").2 = true
    ∧ exAuthState.security_sessions "bogus" = none
    ∧ exAuthState.active_sessions "bogus" = none
    ∧ (end_session exAuthState "bogus").1.current_session
        ≠ exAuthState.current_session
    ∧ (end_session exAuthState "bogus").1.behavioral_running
        ≠ exAuthState.behavioral_running := by
  refine ⟨rfl, by simp [exAuthState], by simp [exAuthState], ?_, ?_⟩ <;>
    simp [end_session, stop_session, exAuthState]

/-- Claim C9 amended: calling end_session with a session id unknown to
both the security registry and the active-sessions map returns true and
leaves the security registry, the active-sessions map and every other
feature-history entry unchanged; its only effect is that of stop_session,
which halts behavioral collection and marks the current behavioral
session, if any, inactive. -/
theorem c9_unknown_end_session (s : AuthManagerState) (sid : String)
    (h1 : s.security_sessions sid = none)
    (h2 : s.active_sessions sid = none) :
    (end_session s sid).2 = true
    ∧ (∀ k, (end_session s sid).1.security_sessions k = s.security_sessions k)
    ∧ (∀ k, (end_session s sid).1.active_sessions k = s.active_sessions k)
    ∧ (∀ k, k ≠ sid → (end_session s sid).1.feature_history k = s.feature_history k)
    ∧ (end_session s sid).1.current_session = (stop_session s).1.current_session
    ∧ (end_session s sid).1.behavioral_running = (stop_session s).1.behavioral_running := by
  have hsec : (stop_session s).1.security_sessions = s.security_sessions := by
    unfold stop_session
    cases s.current_session <;> rfl
  have hact : (stop_session s).1.active_sessions = s.active_sessions := by
    unfold stop_session
    cases s.current_session <;> rfl
  have hfh : (stop_session s).1.feature_history = s.feature_history := by
    unfold stop_session
    cases s.current_session <;> rfl
  refine ⟨rfl, ?_, ?_, ?_, rfl, rfl⟩
  · intro k
    show (if k = sid then none else (stop_session s).1.security_sessions k)
      = s.security_sessions k
    by_cases hk : k = sid
    · rw [if_pos hk, hk, h1]
    · rw [if_neg hk, hsec]
  · intro k
    show (if k = sid then none else (stop_session s).1.active_sessions k)
      = s.active_sessions k
    by_cases hk : k = sid
    · rw [if_pos hk, hk, h2]
    · rw [if_neg hk, hact]
  · intro k hk
    show (if k = sid then none else (stop_session s).1.feature_history k)
      = s.feature_history k
    rw [if_neg hk, hfh]

/-- Witness for c9_unknown_end_session: the concrete state exAuthState
with the unknown id bogus; the entry of session A is untouched. -/
theorem c9_witness :
    exAuthState.security_sessions "bogus" = none
    ∧ exAuthState.active_sessions "bogus" = none
    ∧ (end_session exAuthState "bogus").2 = true
    ∧ (end_session exAuthState "bogus").1.active_sessions "A"
        = exAuthState.active_sessions "A" := by
  have h := c9_unknown_end_session exAuthState "bogus"
    (by simp [exAuthState]) (by simp [exAuthState])
  exact ⟨by simp [exAuthState], by simp [exAuthState], h.1, h.2.2.1 "A"⟩

end Theorems

end BehaviorAuth
